import Mathlib

/-!
Shallow embedding of the `moveref` crate's ownership/lifetime tracking
protocol (files `src/slot_storage.rs`, `src/slot.rs`, `src/move_ref.rs`,
`src/new.rs`, `src/deref_move.rs`).

The Rust code mutates three `Cell`s inside a `SlotStorageTracker`; the
borrowed view `SlotStorageStatus` aliases those cells.  Here every
status operation is a pure state transformer on a `Tracker` record, and
a `SlotStorage` combines the tracker with the (possibly uninitialized)
memory, modelled as `Option`.  Destructor runs and process aborts are
made observable as explicit results.
-/

namespace Moveref

/-- `SlotStorageKind` from `slot_storage.rs`: whether the storage drops its
referent when leaving scope (`Drop`) or not (`Keep`). -/
inductive SlotStorageKind : Type
| Drop : SlotStorageKind
| Keep : SlotStorageKind
deriving DecidableEq, Repr

/-- `SlotStorageTracker` from `slot_storage.rs`: the three cells
(`initialized`, `released`, `references`).  The borrowed
`SlotStorageStatus` view is modelled by letting every status operation
act directly on this record. -/
structure Tracker : Type where
  initialized : Bool
  released : Bool
  references : Nat
deriving DecidableEq, Repr

/-- `SlotStorageTracker::new()`: all flags false, zero references. -/
def Tracker.new : Tracker :=
  { initialized := false, released := false, references := 0 }

/-- `SlotStorageStatus::is_initialized`. -/
def Tracker.is_initialized (t : Tracker) : Bool := t.initialized

/-- `SlotStorageStatus::is_reference_zeroed`. -/
def Tracker.is_reference_zeroed (t : Tracker) : Bool := t.references == 0

/-- `SlotStorageStatus::is_uninitialized`: references zeroed and not
initialized. -/
def Tracker.is_uninitialized (t : Tracker) : Bool :=
  t.is_reference_zeroed && !t.is_initialized

/-- `SlotStorageStatus::is_released`. -/
def Tracker.is_released (t : Tracker) : Bool := t.released

/-- `SlotStorageStatus::is_leaking`: not released, initialized, and the
reference count is nonzero. -/
def Tracker.is_leaking (t : Tracker) : Bool :=
  !t.is_released && (t.is_initialized && !t.is_reference_zeroed)

/-- `SlotStorageStatus::increment`: adds one to the reference count (the
`debug_assert!(self.is_reference_zeroed())` is recorded separately as
`Tracker.incrementAssert`). -/
def Tracker.increment (t : Tracker) : Tracker :=
  { t with references := t.references + 1 }

/-- The `debug_assert!` precondition of `SlotStorageStatus::increment`:
the count must currently be zero. -/
def Tracker.incrementAssert (t : Tracker) : Prop :=
  t.is_reference_zeroed = true

/-- `SlotStorageStatus::decrement`: subtracts one from the reference
count (`debug_assert!(!self.is_reference_zeroed())` recorded as
`Tracker.decrementAssert`). -/
def Tracker.decrement (t : Tracker) : Tracker :=
  { t with references := t.references - 1 }

/-- The `debug_assert!` precondition of `SlotStorageStatus::decrement`:
the count must currently be nonzero. -/
def Tracker.decrementAssert (t : Tracker) : Prop :=
  t.is_reference_zeroed = false

/-- `SlotStorageStatus::initialize`: sets `initialized` and then calls
`increment` (the `debug_assert!(!self.is_initialized())` is recorded as
`Tracker.initializeAssert`).  Note the source calls this *before*
running a `TryNew` constructor in `Slot::try_emplace`. -/
def Tracker.initializeStatus (t : Tracker) : Tracker :=
  Tracker.increment { t with initialized := true }

/-- The `debug_assert!` precondition of `SlotStorageStatus::initialize`:
not yet initialized. -/
def Tracker.initializeAssert (t : Tracker) : Prop :=
  t.is_initialized = false

/-- `SlotStorageStatus::release`: marks the storage released. -/
def Tracker.release (t : Tracker) : Tracker :=
  { t with released := true }

/-- `SlotStorageStatus::terminate`: a decrement followed by a
`debug_assert!` that the count is now zero. -/
def Tracker.terminate (t : Tracker) : Tracker :=
  Tracker.decrement t

/-- `SlotStorage<T>` from `slot_storage.rs`: the drop-behavior kind, the
raw `MaybeUninit<T>` memory (`none` = uninitialized), and the tracker. -/
structure SlotStorage (α : Type) : Type where
  kind : SlotStorageKind
  memory : Option α
  tracker : Tracker
deriving DecidableEq, Repr

/-- `SlotStorage::<T>::new(kind)`: uninitialized memory, fresh tracker. -/
def SlotStorage.new (α : Type) (kind : SlotStorageKind) : SlotStorage α :=
  { kind := kind, memory := none, tracker := Tracker.new }

/-- Observable outcome of `impl Drop for SlotStorage` (teardown):
either it returns silently on an uninitialized tracker, aborts the
process on a leaking tracker, runs `assume_init_drop` on the contained
value (kind `Drop`), or leaves the memory untouched (kind `Keep`). -/
inductive TeardownOutcome : Type
| silent : TeardownOutcome
| aborted : TeardownOutcome
| droppedValue : TeardownOutcome
| keptValue : TeardownOutcome
deriving DecidableEq, Repr

/-- Number of destructor runs on the storage's contained value performed
by a given teardown outcome (`assume_init_drop` runs it once). -/
def TeardownOutcome.destructorRuns : TeardownOutcome → Nat
| TeardownOutcome.droppedValue => 1
| _ => 0

/-- `impl<T> Drop for SlotStorage<T>` (`slot_storage.rs` lines 139-155):
return if uninitialized; abort (via `non_unwinding_panic_abort`, a
forced double-panic) if leaking; otherwise `assume_init_drop` the memory
exactly when the kind is `Drop`. -/
def SlotStorage.dropStorage {α : Type} (s : SlotStorage α) : TeardownOutcome :=
  if s.tracker.is_uninitialized then TeardownOutcome.silent
  else if s.tracker.is_leaking then TeardownOutcome.aborted
  else match s.kind with
    | SlotStorageKind.Drop => TeardownOutcome.droppedValue
    | SlotStorageKind.Keep => TeardownOutcome.keptValue

/-- `FnNew` from `new.rs::by_raw`: a `New` constructor is a function
acting on the pinned `MaybeUninit` memory it is asked to initialize. -/
structure FnNew (α : Type) : Type where
  initializer : Option α → Option α

/-- `new::by_raw(initializer)`. -/
def by_raw {α : Type} (f : Option α → Option α) : FnNew α :=
  { initializer := f }

/-- `new::by(f)` (`new.rs` lines 105-113): `let val = f();` runs the
thunk immediately, then builds a `by_raw` constructor that writes the
already-computed value (`dst.set(MaybeUninit::new(val))`). -/
def new_by {α : Type} (f : Unit → α) : FnNew α :=
  let val := f ()
  by_raw (fun _dst => some val)

/-- `new::of(val)` (`new.rs` lines 115-119): `by(|| val)`. -/
def new_of {α : Type} (val : α) : FnNew α :=
  new_by (fun _ => val)

/-- `new::by` applied to a thunk that may fail (modelling a panicking or
diverging closure `F: FnOnce() -> T` as `Unit → Except E α`).  Because
the source's `by` runs `f()` before constructing the `FnNew`, a failure
of the thunk surfaces at the `by` call itself, before any slot or
storage exists; on success the constructor holds the computed value. -/
def new_by_fallible {α E : Type} (f : Unit → Except E α) : Except E (FnNew α) :=
  match f () with
  | Except.error e => Except.error e
  | Except.ok val => Except.ok (by_raw (fun _dst => some val))

/-- `Slot::try_emplace(self, new)` (`slot.rs` lines 33-43) as a state
transformer on the backing storage.  The source calls
`self.status.initialize()` first, then runs the constructor (which must
leave the memory untouched on error), then on success wraps the
initialized memory in a pinned `MoveRef`.  Returns the updated storage
and `some e` when the constructor failed (the `Err` return), `none` on
success. -/
def Slot.try_emplace {α E : Type} (s : SlotStorage α)
    (ctor : Option α → Except E (Option α)) : SlotStorage α × Option E :=
  let t := Tracker.initializeStatus s.tracker
  match ctor s.memory with
  | Except.error e => ({ s with tracker := t }, some e)
  | Except.ok m => ({ s with tracker := t, memory := m }, none)

/-- `Slot::emplace(self, new)`: `try_emplace` with an uninhabited error
type, so the error branch is impossible. -/
def Slot.emplace {α : Type} (s : SlotStorage α)
    (init : Option α → Option α) : SlotStorage α :=
  (Slot.try_emplace (E := Empty) s (fun m => Except.ok (init m))).1

/-- `Slot::pin(self, val)`: `emplace(new::of(val))`. -/
def Slot.pin {α : Type} (s : SlotStorage α) (v : α) : SlotStorage α :=
  Slot.emplace s (new_of v).initializer

/-- `Slot::put(self, val)`: `pin(val)` followed by
`Pin::into_inner_unchecked`, which does not touch the state. -/
def Slot.put {α : Type} (s : SlotStorage α) (v : α) : SlotStorage α :=
  Slot.pin s v

/-- `Slot::write(self, val)` (`slot.rs` lines 58-64):
`status.initialize()` then `memory.write(val)`. -/
def Slot.write {α : Type} (s : SlotStorage α) (v : α) : SlotStorage α :=
  { s with tracker := Tracker.initializeStatus s.tracker, memory := some v }

/-- Reading through a live `MoveRef` (`impl Deref for MoveRef`,
`move_ref.rs` lines 60-67): yields the value at the handle's pointer,
i.e. the storage memory. -/
def MoveRef.deref {α : Type} (s : SlotStorage α) : Option α := s.memory

/-- `impl Drop for MoveRef` (`move_ref.rs` lines 76-85): if the status
is released, return at once; otherwise `status.terminate()` and
`drop_in_place(self.ptr)`.  Returns the updated storage state and the
number of referent-destructor runs this drop performed (the memory bits
stay behind in the storage either way). -/
def MoveRef.dropHandle {α : Type} (s : SlotStorage α) : SlotStorage α × Nat :=
  if s.tracker.is_released then (s, 0)
  else ({ s with tracker := Tracker.terminate s.tracker }, 1)

/-- `MoveRef::release(pin)` (`move_ref.rs` lines 111-115): unwraps the
pin, calls `status.release()`, and returns the raw pointer; the local
`MoveRef` is then dropped at the end of the function, which is a no-op
because the status is now released.  Returns the updated storage state
and the value readable through the returned pointer. -/
def MoveRef.release {α : Type} (s : SlotStorage α) : SlotStorage α × Option α :=
  let s1 : SlotStorage α := { s with tracker := Tracker.release s.tracker }
  ((MoveRef.dropHandle s1).1, s1.memory)

/-- `MoveRef::into_inner(self)` (`move_ref.rs` lines 121-125): pin the
handle, `MoveRef::release` it, then `core::ptr::read` the value out of
the returned pointer.  The memory bits stay behind in the storage. -/
def MoveRef.into_inner {α : Type} (s : SlotStorage α) : SlotStorage α × Option α :=
  let r := MoveRef.release s
  (r.1, r.2)

/-- A `MoveRef` value as data, for `impl DerefMove for MoveRef`
(`deref_move.rs` lines 81-92): a pointer and a borrowed status view,
abstracted over their identities. -/
structure MoveRefVal (π σ : Type) : Type where
  ptr : π
  status : σ

/-- `impl DerefMove for MoveRef` (`deref_move.rs` lines 81-92): the body
is `return self;` with the fresh storage slot ignored (`_storage`, of
element type `()` per `IntoMove for MoveRef`).  The ambient state —
the handle's underlying tracker and the fresh backing storage — is
threaded through to record that the operation touches neither. -/
def MoveRef.deref_move {π σ : Type} (m : MoveRefVal π σ) (underlying : Tracker)
    (freshStorage : SlotStorage Unit) :
    MoveRefVal π σ × Tracker × SlotStorage Unit :=
  (m, underlying, freshStorage)

/- Shared helper lemmas. -/

/-- A released tracker is never leaking: `is_leaking` starts with
`!is_released`. -/
theorem Tracker.not_leaking_of_released (t : Tracker) (h : t.released = true) :
    t.is_leaking = false := by
  simp [Tracker.is_leaking, Tracker.is_released, h]

/-- Teardown of a `Keep`-kind storage whose tracker is released never
runs a destructor and never aborts. -/
theorem SlotStorage.drop_keep_released {α : Type} (s : SlotStorage α)
    (hk : s.kind = SlotStorageKind.Keep) (hr : s.tracker.released = true) :
    (SlotStorage.dropStorage s).destructorRuns = 0 ∧
      SlotStorage.dropStorage s ≠ TeardownOutcome.aborted := by
  have hl := Tracker.not_leaking_of_released s.tracker hr
  unfold SlotStorage.dropStorage
  cases hu : s.tracker.is_uninitialized with
  | true => simp [hu, TeardownOutcome.destructorRuns]
  | false => simp [hu, hl, hk, TeardownOutcome.destructorRuns]

/- Claim theorems. -/

/-- C1: the claim states that when a construction procedure fails,
`Slot::try_emplace` returns the error and leaves the tracker completely
unchanged, so the storage teardown sees the uninitialized state and
neither runs a destructor nor aborts.  The code instead calls
`status.initialize()` *before* running the constructor: on error the
tracker ends up initialized with reference count 1, and the storage
teardown then observes a leaking tracker and aborts.  This theorem
evaluates the embedded code at the failing input (an always-failing
constructor fed to `try_emplace` on a fresh `Drop`-kind storage). -/
theorem try_emplace_error_mutates_tracker_and_teardown_aborts :
    (Slot.try_emplace (E := Unit) (SlotStorage.new Nat SlotStorageKind.Drop)
        (fun _ => Except.error ())).2 = some () ∧
    (Slot.try_emplace (E := Unit) (SlotStorage.new Nat SlotStorageKind.Drop)
        (fun _ => Except.error ())).1.tracker ≠ Tracker.new ∧
    (Slot.try_emplace (E := Unit) (SlotStorage.new Nat SlotStorageKind.Drop)
        (fun _ => Except.error ())).1.tracker.initialized = true ∧
    (Slot.try_emplace (E := Unit) (SlotStorage.new Nat SlotStorageKind.Drop)
        (fun _ => Except.error ())).1.tracker.references = 1 ∧
    SlotStorage.dropStorage (Slot.try_emplace (E := Unit)
        (SlotStorage.new Nat SlotStorageKind.Drop)
        (fun _ => Except.error ())).1 = TeardownOutcome.aborted := by
  refine ⟨rfl, ?_, rfl, rfl, rfl⟩
  decide

/-- C2: for every storage whose tracker is leaking at teardown time
(initialized, not released, nonzero reference count), the teardown of
the backing `SlotStorage` aborts the process (via the forced
double-panic in `non_unwinding_panic_abort`) rather than returning. -/
theorem teardown_aborts_when_leaking {α : Type} (s : SlotStorage α)
    (h : s.tracker.is_leaking = true) :
    SlotStorage.dropStorage s = TeardownOutcome.aborted := by
  have hu : s.tracker.is_uninitialized = false := by
    simp only [Tracker.is_leaking, Bool.and_eq_true, Bool.not_eq_true'] at h
    simp [Tracker.is_uninitialized, h.2.2]
  unfold SlotStorage.dropStorage
  simp [hu, h]

/-- Witness for C2 at a concrete leaking storage (a forgotten live
handle: initialized, not released, one live reference). -/
theorem teardown_aborts_when_leaking_witness :
    (Tracker.is_leaking { initialized := true, released := false, references := 1 }
      = true) ∧
    SlotStorage.dropStorage
      { kind := SlotStorageKind.Drop, memory := some 42,
        tracker := { initialized := true, released := false, references := 1 } }
      = TeardownOutcome.aborted :=
  ⟨rfl, teardown_aborts_when_leaking
    { kind := SlotStorageKind.Drop, memory := some (42 : Nat),
      tracker := { initialized := true, released := false, references := 1 } } rfl⟩

/-- C6: for every value `v` and both drop policies, constructing a
handle via `Slot::put(v)` on the slot of a fresh `SlotStorage` and
immediately reading through the returned `MoveRef` yields `v`. -/
theorem put_then_deref_yields_value {α : Type} (v : α) (kind : SlotStorageKind) :
    MoveRef.deref (Slot.put (SlotStorage.new α kind) v) = some v := rfl

/-- C9: `DerefMove::deref_move` of a `MoveRef` is the identity: the
resulting handle carries the exact same pointer and status view as the
original, and neither the underlying tracker nor the fresh backing
storage is modified (no second initialization or increment occurs). -/
theorem deref_move_of_move_ref_is_identity {π σ : Type} (m : MoveRefVal π σ)
    (t : Tracker) (f : SlotStorage Unit) :
    (MoveRef.deref_move m t f).1.ptr = m.ptr ∧
    (MoveRef.deref_move m t f).1.status = m.status ∧
    (MoveRef.deref_move m t f).2.1 = t ∧
    (MoveRef.deref_move m t f).2.2 = f :=
  ⟨rfl, rfl, rfl, rfl⟩

/-- C10: `new::by(f)` runs the thunk at the `by` call, before any slot
or storage is supplied, and equals the constructor `new::of(f())`:
emplacing either into a slot of any storage produces the same state.
Through the fallible-thunk model, a failure of the thunk surfaces at the
`by` call itself, and on success the constructor is `new::of` of the
pre-computed value. -/
theorem new_by_is_eager_and_equals_new_of {α E : Type} (f : Unit → α)
    (g : Unit → Except E α) :
    new_by f = new_of (f ()) ∧
    (∀ s : SlotStorage α,
      Slot.emplace s (new_by f).initializer
        = Slot.emplace s (new_of (f ())).initializer) ∧
    (∀ e : E, g () = Except.error e → new_by_fallible g = Except.error e) ∧
    (∀ v : α, g () = Except.ok v → new_by_fallible g = Except.ok (new_of v)) := by
  refine ⟨rfl, fun s => rfl, ?_, ?_⟩
  · intro e h
    unfold new_by_fallible
    rw [h]
  · intro v h
    unfold new_by_fallible
    rw [h]
    rfl

/-- Witness for C10: a concrete thunk returning 3 and a concrete
fallible thunk that always fails. -/
theorem new_by_is_eager_and_equals_new_of_witness :
    new_by (fun _ => (3 : Nat)) = new_of 3 ∧
    new_by_fallible (fun _ => (Except.error () : Except Unit Nat))
      = Except.error () :=
  ⟨(new_by_is_eager_and_equals_new_of (fun _ => (3 : Nat))
      (fun _ => (Except.error () : Except Unit Nat))).1,
   (new_by_is_eager_and_equals_new_of (fun _ => (3 : Nat))
      (fun _ => (Except.error () : Except Unit Nat))).2.2.1 () rfl⟩

/-- C3 counterexample: the claim asserts the referent's destructor runs
exactly once for *every* `SlotStorageKind`.  On a `Drop`-kind storage
holding the value directly, a naturally dropped handle runs the
destructor (`drop_in_place` in `MoveRef::drop`), and the storage
teardown then runs `assume_init_drop` on the same memory again: two runs
in total, not one. -/
theorem natural_drop_double_destructor_on_drop_kind :
    (MoveRef.dropHandle (Slot.put (SlotStorage.new Nat SlotStorageKind.Drop) 42)).2
      + (SlotStorage.dropStorage
          (MoveRef.dropHandle
            (Slot.put (SlotStorage.new Nat SlotStorageKind.Drop) 42)).1).destructorRuns
      = 2 ∧
    ¬ ((MoveRef.dropHandle (Slot.put (SlotStorage.new Nat SlotStorageKind.Drop) 42)).2
      + (SlotStorage.dropStorage
          (MoveRef.dropHandle
            (Slot.put (SlotStorage.new Nat SlotStorageKind.Drop) 42)).1).destructorRuns
      = 1) := by
  decide

/-- C3 (amended): for every `MoveRef` disposed of by its natural
destructor (neither released nor consumed) whose backing storage has
kind `Keep` — the kind the crate's value-emplacement macros create —
the referent's destructor runs exactly once in total across the handle's
drop and the storage's later teardown, and the teardown does not
abort. -/
theorem natural_drop_destructor_once_on_keep_kind {α : Type} (s : SlotStorage α)
    (hk : s.kind = SlotStorageKind.Keep) (hi : s.tracker.initialized = true)
    (hr : s.tracker.released = false) (hc : s.tracker.references = 1) :
    (MoveRef.dropHandle s).2
      + (SlotStorage.dropStorage (MoveRef.dropHandle s).1).destructorRuns = 1 ∧
    SlotStorage.dropStorage (MoveRef.dropHandle s).1 ≠ TeardownOutcome.aborted := by
  obtain ⟨k, m, tr⟩ := s
  obtain ⟨i, r, c⟩ := tr
  simp only at hk hi hr hc
  subst hk
  subst hi
  subst hr
  subst hc
  exact ⟨rfl, fun hx => TeardownOutcome.noConfusion hx⟩

/-- Witness for C3 (amended) at a concrete live handle over a
`Keep`-kind storage. -/
theorem natural_drop_destructor_once_on_keep_kind_witness :
    (MoveRef.dropHandle
        ({ kind := SlotStorageKind.Keep, memory := some 7,
           tracker := { initialized := true, released := false, references := 1 } }
          : SlotStorage Nat)).2
      + (SlotStorage.dropStorage
          (MoveRef.dropHandle
            ({ kind := SlotStorageKind.Keep, memory := some 7,
               tracker := { initialized := true, released := false, references := 1 } }
              : SlotStorage Nat)).1).destructorRuns = 1 :=
  (natural_drop_destructor_once_on_keep_kind
    { kind := SlotStorageKind.Keep, memory := some (7 : Nat),
      tracker := { initialized := true, released := false, references := 1 } }
    rfl rfl rfl rfl).1

/-- C4 counterexample: the claim asserts the reference count is
decremented on the release path as well, returning to 0 before the
storage is torn down.  After `put(42)` and `MoveRef::release`, the
embedded tracker still holds reference count 1: `MoveRef::drop`
early-returns on a released status without calling `terminate`. -/
theorem release_leaves_reference_count_nonzero :
    (MoveRef.release
        (Slot.put (SlotStorage.new Nat SlotStorageKind.Keep) 42)).1.tracker.references
      = 1 ∧
    ¬ ((MoveRef.release
        (Slot.put (SlotStorage.new Nat SlotStorageKind.Keep) 42)).1.tracker.references
      = 0) := by
  decide

/-- C4 (amended): for a live handle (initialized, not released, count
1), the natural drop path decrements the count exactly once (to 0),
while the `release` and `into_inner` paths perform no decrement — the
count stays 1 — and instead set the released flag, which is what keeps
the storage teardown from aborting. -/
theorem disposal_decrement_only_on_natural_drop {α : Type} (s : SlotStorage α)
    (hi : s.tracker.initialized = true) (hr : s.tracker.released = false)
    (hc : s.tracker.references = 1) :
    (MoveRef.dropHandle s).1.tracker.references = 0 ∧
    (MoveRef.release s).1.tracker.references = 1 ∧
    (MoveRef.into_inner s).1.tracker.references = 1 ∧
    (MoveRef.release s).1.tracker.released = true ∧
    SlotStorage.dropStorage (MoveRef.release s).1 ≠ TeardownOutcome.aborted := by
  obtain ⟨k, m, tr⟩ := s
  obtain ⟨i, r, c⟩ := tr
  simp only at hi hr hc
  subst hi
  subst hr
  subst hc
  refine ⟨rfl, rfl, rfl, rfl, ?_⟩
  cases k <;> exact fun hx => TeardownOutcome.noConfusion hx

/-- Witness for C4 (amended) at a concrete live handle. -/
theorem disposal_decrement_only_on_natural_drop_witness :
    (MoveRef.dropHandle
        ({ kind := SlotStorageKind.Keep, memory := some 5,
           tracker := { initialized := true, released := false, references := 1 } }
          : SlotStorage Nat)).1.tracker.references = 0 ∧
    (MoveRef.release
        ({ kind := SlotStorageKind.Keep, memory := some 5,
           tracker := { initialized := true, released := false, references := 1 } }
          : SlotStorage Nat)).1.tracker.references = 1 :=
  ⟨(disposal_decrement_only_on_natural_drop
      { kind := SlotStorageKind.Keep, memory := some (5 : Nat),
        tracker := { initialized := true, released := false, references := 1 } }
      rfl rfl rfl).1,
   (disposal_decrement_only_on_natural_drop
      { kind := SlotStorageKind.Keep, memory := some (5 : Nat),
        tracker := { initialized := true, released := false, references := 1 } }
      rfl rfl rfl).2.1⟩

/-- C5 counterexample: the claim asserts teardown never runs the
referent's destructor after `release`, for *every* `SlotStorageKind`.
On a `Drop`-kind storage, after `put(42)` and `release`, the storage
teardown still executes `assume_init_drop` (the released flag is checked
only by the leak test, not by the drop branch), running the destructor
the storage memory was supposed to leave for the caller. -/
theorem release_then_teardown_runs_destructor_on_drop_kind :
    SlotStorage.dropStorage
        (MoveRef.release
          (Slot.put (SlotStorage.new Nat SlotStorageKind.Drop) 42)).1
      = TeardownOutcome.droppedValue ∧
    ¬ ((SlotStorage.dropStorage
        (MoveRef.release
          (Slot.put (SlotStorage.new Nat SlotStorageKind.Drop) 42)).1).destructorRuns
      = 0) := by
  decide

/-- C5 (amended): after `MoveRef::release` on a handle whose backing
storage has kind `Keep` (the kind the crate's value-emplacement macros
create), the storage's later teardown runs no destructor, does not
abort, and leaves the released value's memory untouched, and the
returned raw pointer reads the stored value. -/
theorem release_then_teardown_no_destructor_on_keep_kind {α : Type}
    (s : SlotStorage α) (hk : s.kind = SlotStorageKind.Keep) :
    (SlotStorage.dropStorage (MoveRef.release s).1).destructorRuns = 0 ∧
    SlotStorage.dropStorage (MoveRef.release s).1 ≠ TeardownOutcome.aborted ∧
    (MoveRef.release s).1.memory = s.memory ∧
    (MoveRef.release s).2 = s.memory := by
  have h := SlotStorage.drop_keep_released (MoveRef.release s).1 hk rfl
  exact ⟨h.1, h.2, rfl, rfl⟩

/-- Witness for C5 (amended) at a concrete released handle over a
`Keep`-kind storage. -/
theorem release_then_teardown_no_destructor_on_keep_kind_witness :
    (SlotStorage.dropStorage
        (MoveRef.release
          ({ kind := SlotStorageKind.Keep, memory := some 9,
             tracker := { initialized := true, released := false, references := 1 } }
            : SlotStorage Nat)).1).destructorRuns = 0 :=
  (release_then_teardown_no_destructor_on_keep_kind
    { kind := SlotStorageKind.Keep, memory := some (9 : Nat),
      tracker := { initialized := true, released := false, references := 1 } }
    rfl).1

/-- C7 counterexample: the claim asserts the backing storage's teardown
discards the vacated memory without re-running a destructor.  On a
`Drop`-kind storage holding the value directly, after `put(42)` and
`into_inner` (which extracts `42`), the teardown still executes
`assume_init_drop` on the vacated memory: a second destructor run. -/
theorem into_inner_then_teardown_runs_destructor_on_drop_kind :
    (MoveRef.into_inner
        (Slot.put (SlotStorage.new Nat SlotStorageKind.Drop) 42)).2 = some 42 ∧
    ¬ ((SlotStorage.dropStorage
        (MoveRef.into_inner
          (Slot.put (SlotStorage.new Nat SlotStorageKind.Drop) 42)).1).destructorRuns
      = 0) := by
  decide

/-- C7 (amended): `MoveRef::into_inner` is `MoveRef::release` followed
by reading the value out of the returned pointer by value: it yields
exactly the value in the storage and marks the tracker released; and
when the backing storage's kind is `Keep` (the kind the crate's
value-emplacement macros create), the later teardown discards the
vacated memory without running a destructor. -/
theorem into_inner_is_release_then_read {α : Type} (s : SlotStorage α)
    (hk : s.kind = SlotStorageKind.Keep) :
    MoveRef.into_inner s = ((MoveRef.release s).1, (MoveRef.release s).2) ∧
    (MoveRef.into_inner s).2 = s.memory ∧
    (MoveRef.into_inner s).1.tracker.released = true ∧
    (SlotStorage.dropStorage (MoveRef.into_inner s).1).destructorRuns = 0 := by
  refine ⟨rfl, rfl, rfl, ?_⟩
  exact (SlotStorage.drop_keep_released (MoveRef.into_inner s).1 hk rfl).1

/-- Witness for C7 (amended) at a concrete live handle over a
`Keep`-kind storage. -/
theorem into_inner_is_release_then_read_witness :
    (MoveRef.into_inner
        ({ kind := SlotStorageKind.Keep, memory := some 11,
           tracker := { initialized := true, released := false, references := 1 } }
          : SlotStorage Nat)).2 = some 11 :=
  (into_inner_is_release_then_read
    { kind := SlotStorageKind.Keep, memory := some (11 : Nat),
      tracker := { initialized := true, released := false, references := 1 } }
    rfl).2.1

/-- Protocol state for the reachability analysis of claim C8: the
storage state plus whether a live `MoveRef` currently borrows it (the
borrow checker forbids taking a new `Slot` while a handle is live, and
requires a live handle for the disposal operations). -/
structure ProtoState (α : Type) : Type where
  storage : SlotStorage α
  live : Bool

/-- One protocol operation, covering the operations listed in claim C8:
`SlotStorage::slot` followed by consuming the slot with
`write`/`try_emplace`/`emplace`/`put`/`pin` (possible only while no
handle is live; `pin` and `put` produce the same state, and a
successful `try_emplace` coincides with `emplace`), and disposing of a
live handle by drop, `release`, or `into_inner`.  A failed
`try_emplace` returns the error and produces no handle. -/
inductive ProtoStep {α : Type} : ProtoState α → ProtoState α → Prop
| putStep (s : SlotStorage α) (v : α) :
    ProtoStep ⟨s, false⟩ ⟨Slot.put s v, true⟩
| writeStep (s : SlotStorage α) (v : α) :
    ProtoStep ⟨s, false⟩ ⟨Slot.write s v, true⟩
| tryEmplaceOkStep (s : SlotStorage α) (init : Option α → Option α) :
    ProtoStep ⟨s, false⟩ ⟨Slot.emplace s init, true⟩
| tryEmplaceErrStep (s : SlotStorage α) :
    ProtoStep ⟨s, false⟩
      ⟨(Slot.try_emplace (E := Unit) s (fun _ => Except.error ())).1, false⟩
| dropStep (s : SlotStorage α) :
    ProtoStep ⟨s, true⟩ ⟨(MoveRef.dropHandle s).1, false⟩
| releaseStep (s : SlotStorage α) :
    ProtoStep ⟨s, true⟩ ⟨(MoveRef.release s).1, false⟩
| intoInnerStep (s : SlotStorage α) :
    ProtoStep ⟨s, true⟩ ⟨(MoveRef.into_inner s).1, false⟩

/-- Tracker states reachable from a fresh `SlotStorage::new(kind)` by
sequences of protocol operations. -/
inductive ProtoReachable {α : Type} : ProtoState α → Prop
| init (kind : SlotStorageKind) :
    ProtoReachable ⟨SlotStorage.new α kind, false⟩
| step {s t : ProtoState α} :
    ProtoReachable s → ProtoStep s t → ProtoReachable t

/-- C8: the claim asserts the reference count is 0 or 1 in every
reachable tracker state and that `increment` is never called with a
nonzero count.  Because `Slot::try_emplace` calls `status.initialize()`
before running the constructor, a failed emplacement leaves the count at
1 with no live handle; a second emplacement on the same storage is then
reachable and calls `increment` with the count already 1 — violating
`increment`'s own `debug_assert` (`Tracker.incrementAssert`) — and
drives the count to 2. -/
theorem reachable_reference_count_two :
    ProtoReachable (α := Nat)
      ⟨Slot.emplace
          (Slot.try_emplace (E := Unit) (SlotStorage.new Nat SlotStorageKind.Keep)
            (fun _ => Except.error ())).1
          (fun _ => some 5), true⟩ ∧
    (Slot.emplace
        (Slot.try_emplace (E := Unit) (SlotStorage.new Nat SlotStorageKind.Keep)
          (fun _ => Except.error ())).1
        (fun _ => some 5)).tracker.references = 2 ∧
    ¬ Tracker.incrementAssert
        (Slot.try_emplace (E := Unit) (SlotStorage.new Nat SlotStorageKind.Keep)
          (fun _ => Except.error ())).1.tracker := by
  refine ⟨?_, rfl, ?_⟩
  · exact ProtoReachable.step
      (ProtoReachable.step (ProtoReachable.init SlotStorageKind.Keep)
        (ProtoStep.tryEmplaceErrStep _))
      (ProtoStep.tryEmplaceOkStep _ _)
  · unfold Tracker.incrementAssert
    decide

end Moveref
